import Mathlib

/-!
Verification of dmahugh/backup-verifier.

The repository compares directory-listing snapshots of backup drives against
a master copy and reports missing / modified / extra files.  The model below
is a shallow embedding of `backup_verifier.py` (the consolidated final
variant of the logic; `bvtools.py` is an earlier variant of the same
functions).  Python strings are modelled as `List Char`, Python dicts as
association lists with insertion-order, last-write-wins semantics, files as
an association list from name to content, and Python exceptions
(`ValueError` from `int()` / `strptime`, `FileNotFoundError` from `open()`)
as `Except` errors.
-/

/-- Python strings, modelled as lists of characters. -/
abbrev PyStr := List Char

/-- Python exceptions that the modelled code can raise:
`ValueError` (from `int()` and `datetime.strptime`) and
`FileNotFoundError`/`OSError` (from `open()` on a missing file). -/
inductive PyError where
  | valueError
  | fileNotFoundError
deriving DecidableEq, Repr

/-- Python `str.lower()` (ASCII case folding, which is all that matters for
the drive-letter paths this program handles). -/
def pyLower (s : PyStr) : PyStr := s.map Char.toLower

/-- Python `str.strip()`: remove leading and trailing whitespace. -/
def pyStrip (s : PyStr) : PyStr :=
  ((s.dropWhile Char.isWhitespace).reverse.dropWhile Char.isWhitespace).reverse

/-- Python substring test `needle in hay`. -/
def pyContains (needle : PyStr) : PyStr → Bool
  | [] => needle.isPrefixOf ([] : PyStr)
  | c :: t => needle.isPrefixOf (c :: t) || pyContains needle t

/-- Decimal value of a digit character. -/
def dval (c : Char) : Nat := c.toNat - 48

/-- Parse a non-empty all-digit string as a natural number (the digits part
of Python `int()`). -/
def pyNatDigits (s : PyStr) : Except PyError Nat :=
  if !s.isEmpty && s.all Char.isDigit then
    .ok (s.foldl (fun a c => a * 10 + dval c) 0)
  else
    .error .valueError

/-- Python `int(s)` on an already-stripped string: optional sign followed by
decimal digits, `ValueError` otherwise. -/
def pyInt (s : PyStr) : Except PyError Int :=
  match s with
  | [] => .error .valueError
  | c :: rest =>
    if c = '-' then (pyNatDigits rest).map (fun n => -(n : Int))
    else if c = '+' then (pyNatDigits rest).map (fun n => (n : Int))
    else (pyNatDigits s).map (fun n => (n : Int))

/-- Python `str(i)` for an integer. -/
def pyIntStr (i : Int) : PyStr :=
  if i < 0 then '-' :: Nat.toDigits 10 i.natAbs else Nat.toDigits 10 i.toNat

/-- A `datetime.datetime` value as produced by `ts_to_datetime`: the source
format has minute granularity, so seconds (and microseconds) are always 0. -/
structure PyDatetime where
  year : Nat
  month : Nat
  day : Nat
  hour : Nat
  minute : Nat
deriving DecidableEq, Repr

/-- Leap-year test, as used by `datetime`'s calendar validation. -/
def isLeap (y : Nat) : Bool := y % 4 == 0 && (y % 100 != 0 || y % 400 == 0)

/-- Days in a month, as used by `datetime`'s calendar validation. -/
def daysInMonth (y m : Nat) : Nat :=
  if m == 2 then (if isLeap y then 29 else 28)
  else if m == 4 || m == 6 || m == 9 || m == 11 then 30
  else 31

/-- `ts_to_datetime` (backup_verifier.py lines 324-333): convert a directory
listing timestamp such as `12/08/2016  02:33 PM` to a datetime value via
`datetime.strptime(linetext[:20], "%m/%d/%Y %I:%M %p")`, modelled on the
fixed-width 20-character DIR layout `MM/DD/YYYY  HH:MM AM|PM`.  The range
checks mirror strptime's field validation (month 1-12, day 1-31, 12-hour
clock 1-12, minute 0-59) and `datetime`'s calendar validation (year at
least 1, day within the month).  Any mismatch raises `ValueError`. -/
def ts_to_datetime (linetext : PyStr) : Except PyError PyDatetime :=
  match linetext.take 20 with
  | [m1, m2, sl1, d1, d2, sl2, y1, y2, y3, y4, sp1, sp2, h1, h2, co, n1, n2, sp3, p1, p2] =>
    if m1.isDigit && m2.isDigit && sl1 == '/' && d1.isDigit && d2.isDigit && sl2 == '/' &&
        y1.isDigit && y2.isDigit && y3.isDigit && y4.isDigit && sp1 == ' ' && sp2 == ' ' &&
        h1.isDigit && h2.isDigit && co == ':' && n1.isDigit && n2.isDigit && sp3 == ' ' &&
        (p1 == 'A' || p1 == 'P') && p2 == 'M' then
      let month := dval m1 * 10 + dval m2
      let day := dval d1 * 10 + dval d2
      let year := dval y1 * 1000 + dval y2 * 100 + dval y3 * 10 + dval y4
      let hour12 := dval h1 * 10 + dval h2
      let minute := dval n1 * 10 + dval n2
      if 1 ≤ month && month ≤ 12 && 1 ≤ day && day ≤ daysInMonth year month &&
          1 ≤ hour12 && hour12 ≤ 12 && minute ≤ 59 && 1 ≤ year then
        let hour := if p1 == 'P' then (if hour12 == 12 then 12 else hour12 + 12)
                    else (if hour12 == 12 then 0 else hour12)
        .ok ⟨year, month, day, hour, minute⟩
      else .error .valueError
    else .error .valueError
  | _ => .error .valueError

/-- `%02d` rendering of a field that is less than 100 (all month / day /
hour / minute fields produced by `ts_to_datetime` are). -/
def pad2 (n : Nat) : PyStr := [Nat.digitChar (n / 10), Nat.digitChar (n % 10)]

/-- `%04d` rendering of a year below 10000 (4 digits in the source format). -/
def pad4 (n : Nat) : PyStr :=
  [Nat.digitChar (n / 1000), Nat.digitChar (n / 100 % 10),
   Nat.digitChar (n / 10 % 10), Nat.digitChar (n % 10)]

/-- Python `str(timestamp)` for the datetimes built by `ts_to_datetime`:
the fixed `YYYY-MM-DD HH:MM:SS` rendering, with seconds always `00`. -/
def datetime_str (dt : PyDatetime) : PyStr :=
  pad4 dt.year ++ ['-'] ++ pad2 dt.month ++ ['-'] ++ pad2 dt.day ++ [' '] ++
    pad2 dt.hour ++ [':'] ++ pad2 dt.minute ++ [':', '0', '0']

instance {ε α : Type} [DecidableEq ε] [DecidableEq α] : DecidableEq (Except ε α) := by
  intro a b
  cases a <;> cases b
  case ok.ok x y | error.error x y =>
    exact if h : x = y then .isTrue (by rw [h]) else .isFalse (by intro he; cases he; exact h rfl)
  all_goals exact .isFalse (by intro he; cases he)

/-- Result of `parseline`'s classification of one listing line: a noise line
(the all-`None` tuple), a directory-header line (only the folder component),
or a file-entry line (filename, timestamp, filesize). -/
inductive ParsedLine where
  | noise
  | header (folder : PyStr)
  | entry (filename : PyStr) (timestamp : PyDatetime) (filesize : Int)
deriving DecidableEq, Repr

/-- `parseline` (backup_verifier.py lines 266-290): parse one line from a
directory listing.  Empty lines and noise lines (`<DIR>` markers, file-count
summaries, free-space summaries, volume labels, totals) produce no values;
`Directory of ` lines produce the folder; any other line is parsed as a
file entry by fixed-column extraction — the timestamp from the first 20
characters, the size from characters 20-37 (stripped, commas removed), the
filename from character 39 on.  `int()` or `strptime` failures propagate as
`ValueError`. -/
def parseline (linetext : PyStr) : Except PyError ParsedLine :=
  if linetext = [] then .ok .noise
  else if pyContains (" <DIR> ".data) linetext || pyContains ("File(s)".data) linetext
      || ("bytes free".data).isSuffixOf linetext || ("Volume ".data).isPrefixOf linetext
      || ("Total Files".data).isPrefixOf linetext then .ok .noise
  else if ("Directory of ".data).isPrefixOf linetext then .ok (.header (linetext.drop 13))
  else
    match ts_to_datetime linetext with
    | .error e => .error e
    | .ok timestamp =>
      match pyInt (List.filter (fun c => !(c == ',')) (pyStrip ((linetext.drop 20).take 18))) with
      | .error e => .error e
      | .ok filesize => .ok (.entry (linetext.drop 39) timestamp filesize)

/-- One row of a four-column CSV data file, as written by `convert_to_csv`
and read back by `csv.reader`: folder, filename, timestamp text, size text.
(`row[0]` .. `row[3]` in the source.) -/
structure CsvRow where
  folder : PyStr
  filename : PyStr
  timestamp : PyStr
  bytes : PyStr
deriving DecidableEq, Repr

/-- The header row `["folder", "filename", "timestamp", "bytes"]` that
`convert_to_csv` writes as the first row of every CSV file it produces
(backup_verifier.py line 85). -/
def headerRow : CsvRow := ⟨"folder".data, "filename".data, "timestamp".data, "bytes".data⟩

/-- The identity key of a record: `row[0].lower() + "\\" + row[1].lower()`
(backup_verifier.py line 47 for backups and line 175 for the master). -/
def fullpath_of (folder filename : PyStr) : PyStr :=
  pyLower folder ++ '\\' :: pyLower filename

/-- Key of a CSV row. -/
def rowKey (r : CsvRow) : PyStr := fullpath_of r.folder r.filename

/-- Signature of a CSV row: `row[2] + row[3]` — timestamp text concatenated
with size text (backup_verifier.py lines 48 and 175). -/
def rowSig (r : CsvRow) : PyStr := r.timestamp ++ r.bytes

/-- A Python dict from keys to values, modelled as an association list with
unique keys in insertion order. -/
abbrev Dict := List (PyStr × PyStr)

/-- Python `key in d`. -/
def dictContains (d : Dict) (k : PyStr) : Bool := d.any (fun kv => decide (kv.1 = k))

/-- Python `d[key]` lookup (`none` when absent). -/
def dictGet (d : Dict) (k : PyStr) : Option PyStr :=
  (d.find? (fun kv => decide (kv.1 = k))).map (fun kv => kv.2)

/-- Python `d[key] = v`: overwrite in place when the key exists (keeping its
original insertion position), append otherwise. -/
def dictInsert (d : Dict) (k v : PyStr) : Dict :=
  if dictContains d k then d.map (fun kv => if kv.1 = k then (kv.1, v) else kv)
  else d ++ [(k, v)]

/-- Build a dict from CSV rows, keyed and valued exactly as
`master_dict[row[0].lower() + "\\" + row[1].lower()] = row[2] + str(row[3])`
(backup_verifier.py lines 173-175; the same expressions build `backup_dict`
at lines 47-49).  Last write wins for duplicate keys. -/
def buildDict (init : Dict) (rows : List CsvRow) : Dict :=
  rows.foldl (fun d r => dictInsert d (rowKey r) (rowSig r)) init

/-- `files_differ` (backup_verifier.py lines 238-263): given two
timestamp+size signature strings, report whether the files differ.  Per the
documented final policy only the size is compared: the timestamp occupies
the first 19 characters (`YYYY-MM-DD HH:MM:SS`) and the comparison is
`file1[19:] != file2[19:]`. -/
def files_differ (file1 file2 : PyStr) : Bool := file1.drop 19 != file2.drop 19

/-- The scan loop of `backup_compare` (backup_verifier.py lines 46-56): walk
the backup rows in order, populate `backup_dict`, and count a `modified`
classification for a row whose key is in the master with a differing
signature, and an `extra` classification for a row whose key is absent from
the master.  The accumulator is `(backup_dict, ndiffer, nextra)`. -/
def compareLoop (master : Dict) : List CsvRow → Dict × Nat × Nat → Dict × Nat × Nat
  | [], acc => acc
  | r :: rest, (bdict, ndiffer, nextra) =>
    let bdict' := dictInsert bdict (rowKey r) (rowSig r)
    match dictGet master (rowKey r) with
    | some v =>
      compareLoop master rest
        (bdict', (if files_differ v (rowSig r) then ndiffer + 1 else ndiffer), nextra)
    | none => compareLoop master rest (bdict', ndiffer, nextra + 1)

/-- `backup_compare` (backup_verifier.py lines 17-64), its record-level
core: scan the backup rows against the master dict, then scan the master
dict for keys absent from the completed `backup_dict` (`missing`
classifications).  Returns `(nmissing, ndiffer, nextra)`. -/
def backup_compare (rows : List CsvRow) (master : Dict) : Nat × Nat × Nat :=
  let res := compareLoop master rows ([], 0, 0)
  let nmissing := master.countP (fun kv => !(dictContains res.1 kv.1))
  (nmissing, res.2.1, res.2.2)

/-- `excluded_folder` (backup_verifier.py lines 217-235): decide whether a
folder's contents are excluded from the output CSV.  `none` models Python
`None` (the `current_folder` before any directory header); Python's
`if not folder` is true for both `None` and the empty string. -/
def excluded_folder (folder : Option PyStr) : Bool :=
  match folder with
  | none => true
  | some f =>
    if f = [] then true
    else if ("__pycache__".data).isSuffixOf f then true
    else if ("\\.git".data).isSuffixOf f then true
    else if pyContains ("\\.git\\".data) f then true
    else if pyContains ("\\$RECYCLE.BIN\\".data) f then true
    else false

/-- The loop state of `convert_to_csv`: the root `path` detected from the
first directory header (`None` until then) and the `current_folder`. -/
structure ConvState where
  path : Option PyStr
  current_folder : Option PyStr
deriving DecidableEq, Repr

/-- The well-known master-root marker `c:\backup-master`
(backup_verifier.py line 100). -/
def masterMarker : PyStr := "c:\\backup-master".data

/-- One iteration of the `convert_to_csv` loop body (backup_verifier.py
lines 89-121), applied to an already-parsed line: directory headers update
the root path (on the first header: the master marker if the folder starts
with it, else the first two characters) and set `current_folder` to the
folder with the root path stripped from the front when present; file
entries are dropped when the filename is empty or the current folder is
excluded, otherwise a CSV row is emitted after stripping a leading
`\backup-master` from the folder (an update that persists in the loop
variable).  Returns the new state and the rows written. -/
def processParsed (st : ConvState) (p : ParsedLine) : ConvState × List CsvRow :=
  match p with
  | .header folder =>
    if folder = [] then (st, [])
    else
      let path :=
        match st.path with
        | none => if masterMarker.isPrefixOf folder then masterMarker else folder.take 2
        | some p0 =>
          if p0 = [] then (if masterMarker.isPrefixOf folder then masterMarker else folder.take 2)
          else p0
      let cur := if path.isPrefixOf folder then folder.drop path.length else folder
      (⟨some path, some cur⟩, [])
  | .noise => (st, [])
  | .entry filename timestamp filesize =>
    if filename = [] then (st, [])
    else if excluded_folder st.current_folder then (st, [])
    else
      let cur0 := st.current_folder.getD []
      let cur := if ("\\backup-master".data).isPrefixOf cur0 then cur0.drop 14 else cur0
      (⟨st.path, some cur⟩, [⟨cur, filename, datetime_str timestamp, pyIntStr filesize⟩])

/-- One line of the `convert_to_csv` loop: strip the line, parse it, process
the parsed result.  A `ValueError` raised by `parseline` propagates — there
is no handler in the loop. -/
def convertStep (st : ConvState) (line : PyStr) : Except PyError (ConvState × List CsvRow) :=
  (parseline (pyStrip line)).map (processParsed st)

/-- The whole `convert_to_csv` loop over the input lines, threading the
state and concatenating the emitted rows; the first uncaught `ValueError`
aborts the conversion. -/
def convertFold (st : ConvState) : List PyStr → Except PyError (ConvState × List CsvRow)
  | [] => .ok (st, [])
  | l :: ls =>
    match convertStep st l with
    | .error e => .error e
    | .ok (st1, rows) =>
      match convertFold st1 ls with
      | .error e => .error e
      | .ok (stF, rest) => .ok (stF, rows ++ rest)

/-- The data rows `convert_to_csv` emits for a listing, starting from the
initial state (`path = None`, `current_folder = None`). -/
def convertLines (lines : List PyStr) : Except PyError (List CsvRow) :=
  (convertFold ⟨none, none⟩ lines).map (fun p => p.2)

/-- The complete content of the CSV file `convert_to_csv` writes: the
header row (line 85) followed by the data rows. -/
def convert_to_csv (lines : List PyStr) : Except PyError (List CsvRow) :=
  (convertLines lines).map (fun rows => headerRow :: rows)

/-- Content of one file on disk: a four-column CSV data file, or a raw
`.dir` capture of a Windows directory listing (a list of lines). -/
inductive FileData where
  | csvData (rows : List CsvRow)
  | dirData (lines : List PyStr)
deriving DecidableEq, Repr

/-- The file system, as a map from file name to content. -/
abbrev FS := List (PyStr × FileData)

/-- Look a file up by name. -/
def fsLookup (fs : FS) (name : PyStr) : Option FileData :=
  (fs.find? (fun p => decide (p.1 = name))).map (fun p => p.2)

/-- `open(name)` followed by `csv.reader`: yields the file's rows, or
`FileNotFoundError` when the file is absent.  (Reading listing text through
`csv.reader` cannot arise in the modelled runs; it maps to `ValueError`.) -/
def openCsv (fs : FS) (name : PyStr) : Except PyError (List CsvRow) :=
  match fsLookup fs name with
  | some (.csvData rows) => .ok rows
  | some (.dirData _) => .error .valueError
  | none => .error .fileNotFoundError

/-- `open(name)` on a raw listing: yields the lines, or
`FileNotFoundError` when the file is absent. -/
def openDir (fs : FS) (name : PyStr) : Except PyError (List PyStr) :=
  match fsLookup fs name with
  | some (.dirData lines) => .ok lines
  | some (.csvData _) => .error .valueError
  | none => .error .fileNotFoundError

/-- `backup_path.suffix.lower() == ".csv"` (backup_verifier.py line 37 and
line 162). -/
def endsWithCsv (name : PyStr) : Bool := (".csv".data).isSuffixOf (pyLower name)

/-- Obtain the rows of a data file as `backup_compare` and `diff_report`
do: a `.csv` file is read directly; any other file is run through
`convert_to_csv` into a same-named `.csv` (whose content is the header row
plus the converted rows) which is then read back. -/
def getRows (fs : FS) (name : PyStr) : Except PyError (List CsvRow) :=
  if endsWithCsv name then openCsv fs name
  else
    match openDir fs name with
    | .error e => .error e
    | .ok lines => convert_to_csv lines

/-- `backup_compare` at the file level (backup_verifier.py lines 37-64):
open (possibly converting) the backup's data file, then run the comparison
scan against the master dict.  An `open` failure propagates. -/
def backup_compare_file (fs : FS) (name : PyStr) (master : Dict) :
    Except PyError (Nat × Nat × Nat) :=
  (getRows fs name).map (fun rows => backup_compare rows master)

/-- The comparison loop of `diff_report` (backup_verifier.py lines 182-188):
compare each backup in turn against the master dict, collecting
`(backup, (nmissing, ndiffer, nextra))` results; the first uncaught
exception aborts the whole loop. -/
def compareAll (fs : FS) (master : Dict) : List PyStr → Except PyError (List (PyStr × (Nat × Nat × Nat)))
  | [] => .ok []
  | b :: rest =>
    match backup_compare_file fs b master with
    | .error e => .error e
    | .ok t =>
      match compareAll fs master rest with
      | .error e => .error e
      | .ok l => .ok ((b, t) :: l)

/-- The default data-file list of `diff_report` (backup_verifier.py
line 152), substituted when the argument list is empty. -/
def defaultDatafiles : List PyStr :=
  ["master.csv".data, "drive1.csv".data, "drive2.csv".data, "drive3.csv".data]

/-- `diff_report` (backup_verifier.py lines 138-192), its comparison core:
the first data file is the master (converted from a listing first when it
is not a `.csv`), a dict is built from every row of the master file, and
each remaining file is compared against it in order.  Exceptions propagate
and abort the whole run.  Returns the per-backup comparison results (the
report formatting is I/O glue outside the model). -/
def diff_report (fs : FS) (datafiles0 : List PyStr) :
    Except PyError (List (PyStr × (Nat × Nat × Nat))) :=
  let datafiles := if datafiles0 = [] then defaultDatafiles else datafiles0
  match datafiles with
  | [] => .error .valueError
  | m :: backups =>
    match getRows fs m with
    | .error e => .error e
    | .ok masterRows => compareAll fs (buildDict [] masterRows) backups

/-- Spec-side description (spec §4.4): the number of `extra`
classifications is the number of backup records whose key is absent from
the master. -/
def spec_extraCount (master : Dict) (rows : List CsvRow) : Nat :=
  rows.countP (fun r => !(dictContains master (rowKey r)))

/-- Spec-side description (spec §4.4): the number of `modified`
classifications is the number of backup records whose key is present in the
master with a signature that differs under the equality policy. -/
def spec_differCount (master : Dict) (rows : List CsvRow) : Nat :=
  rows.countP (fun r =>
    match dictGet master (rowKey r) with
    | some v => files_differ v (rowSig r)
    | none => false)

/-- Spec-side description (spec §4.4): the number of `missing`
classifications is the number of master keys that never occur among the
backup records. -/
def spec_missingCount (master : Dict) (rows : List CsvRow) : Nat :=
  master.countP (fun kv => !(rows.any (fun r => decide (rowKey r = kv.1))))

/-- Spec-side description (spec §4.2): the root prefix detected on the
first directory header — the well-known master-root marker when the folder
starts with it, otherwise the folder's first two characters (the
drive-letter segment). -/
def spec_rootPrefix (folder : PyStr) : PyStr :=
  if masterMarker.isPrefixOf folder then masterMarker else folder.take 2

/-- Spec-side description (spec §4.2): a folder with the root prefix
stripped from the front when present, unchanged otherwise. -/
def spec_stripRoot (p folder : PyStr) : PyStr :=
  if p.isPrefixOf folder then folder.drop p.length else folder

/-- A well-formed record used throughout the concrete scenarios. -/
def aRow : CsvRow := ⟨"\\docs".data, "a.txt".data, "2019-01-01 00:00:00".data, "100".data⟩

/-- Two records with the same key but different sizes — a legal backup
record sequence (a CSV file may repeat a folder/filename pair). -/
def dupRows : List CsvRow :=
  [⟨"\\docs".data, "a.txt".data, "2019-01-01 00:00:00".data, "100".data⟩,
   ⟨"\\docs".data, "a.txt".data, "2019-01-01 00:00:00".data, "200".data⟩]

/-- Two records with distinct keys. -/
def selfRows : List CsvRow :=
  [⟨"\\docs".data, "a.txt".data, "2019-01-01 00:00:00".data, "100".data⟩,
   ⟨"\\docs".data, "b.txt".data, "2019-02-02 10:30:00".data, "50".data⟩]

/-- A directory-header line. -/
def goodHeaderLine : PyStr := "Directory of d:\\Photos".data

/-- A well-formed file-entry line in the fixed-column layout. -/
def goodEntryLine : PyStr := "12/08/2016  02:33 PM           300,651 report.txt".data

/-- A non-empty, non-noise, non-header line that does not conform to the
fixed file-entry layout (its timestamp and size fields are not parseable). -/
def badEntryLine : PyStr := "this line is not in the fixed layout".data

/-- The row `convert_to_csv` emits for `goodEntryLine` under root `d:`. -/
def goodEntryRow : CsvRow :=
  ⟨"\\Photos".data, "report.txt".data, "2016-12-08 14:33:00".data, "300651".data⟩

/-- A file system for the open-failure scenario: master and backups
`b0.csv` and `b2.csv` exist, `b1.csv` does not. -/
def fsC5 : FS :=
  [("master.csv".data, .csvData [aRow]),
   ("b0.csv".data, .csvData [aRow]),
   ("b2.csv".data, .csvData [aRow])]

/-- A file system whose master data file holds zero records while the
backup `b.csv` holds one record. -/
def fsC6 : FS :=
  [("master.csv".data, .csvData []),
   ("b.csv".data, .csvData [aRow])]

/-- A two-line raw listing whose conversion emits exactly `goodEntryRow`. -/
def listing10 : List PyStr := [goodHeaderLine, goodEntryLine]

/-! ### Dictionary lemmas -/

theorem dictContains_nil (k : PyStr) : dictContains [] k = false := rfl

theorem dictContains_insert (d : Dict) (k v k1 : PyStr) :
    dictContains (dictInsert d k v) k1 = (dictContains d k1 || decide (k1 = k)) := by
  unfold dictInsert
  split
  case isTrue h =>
    have hmap : dictContains (d.map fun kv => if kv.1 = k then (kv.1, v) else kv) k1 =
        dictContains d k1 := by
      unfold dictContains
      rw [List.any_map]
      apply congrArg
      funext kv
      simp only [Function.comp]
      split <;> rfl
    rw [hmap]
    by_cases hk : k1 = k
    · subst hk; simp [h]
    · simp [hk]
  case isFalse h =>
    unfold dictContains at *
    simp only [List.any_append, List.any_cons, List.any_nil, Bool.or_false]
    by_cases hk : k1 = k
    · subst hk; rfl
    · rw [decide_eq_false (fun he => hk he.symm), decide_eq_false hk]

theorem dictContains_buildDict (rows : List CsvRow) (init : Dict) (k : PyStr) :
    dictContains (buildDict init rows) k =
      (dictContains init k || rows.any (fun r => decide (rowKey r = k))) := by
  induction rows generalizing init with
  | nil => simp [buildDict]
  | cons r rest ih =>
    simp only [buildDict, List.foldl_cons] at *
    rw [ih, dictContains_insert, List.any_cons]
    by_cases hk : rowKey r = k
    · simp [hk]
    · rw [decide_eq_false (fun he => hk he.symm), decide_eq_false hk]
      simp

theorem mem_dictInsert {kv : PyStr × PyStr} {d : Dict} {k v : PyStr}
    (h : kv ∈ dictInsert d k v) : kv ∈ d ∨ kv = (k, v) := by
  unfold dictInsert at h
  split at h
  case isTrue hc =>
    rw [List.mem_map] at h
    obtain ⟨kv0, hm, he⟩ := h
    by_cases hk : kv0.1 = k
    · right; rw [← he]; simp [hk]
    · left; rw [← he]; simp [hk]; exact hm
  case isFalse hc =>
    rw [List.mem_append] at h
    rcases h with h | h
    · exact Or.inl h
    · simp at h; exact Or.inr h

theorem mem_buildDict {kv : PyStr × PyStr} (rows : List CsvRow) (init : Dict)
    (h : kv ∈ buildDict init rows) :
    kv ∈ init ∨ ∃ r ∈ rows, kv = (rowKey r, rowSig r) := by
  induction rows generalizing init with
  | nil => exact Or.inl h
  | cons r rest ih =>
    simp only [buildDict, List.foldl_cons] at h
    rcases ih _ h with h1 | h1
    · rcases mem_dictInsert h1 with h2 | h2
      · exact Or.inl h2
      · exact Or.inr ⟨r, List.mem_cons_self r rest, h2⟩
    · obtain ⟨r1, hm, he⟩ := h1
      exact Or.inr ⟨r1, List.mem_cons_of_mem r hm, he⟩

theorem dictGet_mem {d : Dict} {k v : PyStr} (h : dictGet d k = some v) : (k, v) ∈ d := by
  unfold dictGet at h
  cases hf : List.find? (fun kv => decide (kv.1 = k)) d with
  | none => rw [hf] at h; simp at h
  | some kv =>
    rw [hf] at h
    simp at h
    have hp := List.find?_some hf
    simp at hp
    have hm := List.mem_of_find?_eq_some hf
    have : (k, v) = kv := by
      obtain ⟨a, b⟩ := kv
      simp at hp h ⊢
      exact ⟨hp.symm, h.symm⟩
    rw [this]; exact hm

theorem dictGet_isSome_eq_contains (d : Dict) (k : PyStr) :
    (dictGet d k).isSome = dictContains d k := by
  unfold dictGet dictContains
  induction d with
  | nil => rfl
  | cons kv d ih =>
    by_cases h : kv.1 = k
    · rw [List.find?_cons_of_pos _ (by simp [h]), List.any_cons]
      simp [h]
    · rw [List.find?_cons_of_neg _ (by simp [h]), List.any_cons]
      simp [h]
      simpa using ih

theorem dictGet_buildDict_value {rows : List CsvRow} {k v : PyStr}
    (h : dictGet (buildDict [] rows) k = some v) :
    ∃ r ∈ rows, rowKey r = k ∧ rowSig r = v := by
  have h1 := dictGet_mem h
  rcases mem_buildDict rows [] h1 with h2 | h2
  · simp at h2
  · obtain ⟨r, hm, he⟩ := h2
    rw [Prod.ext_iff] at he
    exact ⟨r, hm, he.1.symm, he.2.symm⟩

/-! ### The comparator refines the spec's classification counts -/

theorem files_differ_eq_false_iff (f1 f2 : PyStr) :
    files_differ f1 f2 = false ↔ f1.drop 19 = f2.drop 19 := by
  unfold files_differ
  simp [bne]

theorem compareLoop_spec (master : Dict) (rows : List CsvRow) :
    ∀ bdict nd nx, compareLoop master rows (bdict, nd, nx) =
      (buildDict bdict rows,
       nd + spec_differCount master rows,
       nx + spec_extraCount master rows) := by
  induction rows with
  | nil => intro bdict nd nx; simp [compareLoop, buildDict, spec_differCount, spec_extraCount]
  | cons r rest ih =>
    intro bdict nd nx
    have hbd : buildDict bdict (r :: rest) =
        buildDict (dictInsert bdict (rowKey r) (rowSig r)) rest := by
      simp [buildDict]
    have hcont : dictContains master (rowKey r) = (dictGet master (rowKey r)).isSome :=
      (dictGet_isSome_eq_contains master (rowKey r)).symm
    cases hg : dictGet master (rowKey r) with
    | none =>
      have hstep : compareLoop master (r :: rest) (bdict, nd, nx) =
          compareLoop master rest (dictInsert bdict (rowKey r) (rowSig r), nd, nx + 1) := by
        simp only [compareLoop, hg]
      rw [hstep, ih, hbd]
      have hd : spec_differCount master (r :: rest) = spec_differCount master rest := by
        unfold spec_differCount
        rw [List.countP_cons]
        simp [hg]
      have he : spec_extraCount master (r :: rest) = spec_extraCount master rest + 1 := by
        unfold spec_extraCount
        rw [List.countP_cons]
        simp [hcont, hg]
      rw [hd, he]
      refine congrArg _ ?_
      refine congrArg _ ?_
      omega
    | some v =>
      have hstep : compareLoop master (r :: rest) (bdict, nd, nx) =
          compareLoop master rest (dictInsert bdict (rowKey r) (rowSig r),
            (if files_differ v (rowSig r) then nd + 1 else nd), nx) := by
        simp only [compareLoop, hg]
      rw [hstep, ih, hbd]
      have he : spec_extraCount master (r :: rest) = spec_extraCount master rest := by
        unfold spec_extraCount
        rw [List.countP_cons]
        simp [hcont, hg]
      have hd : spec_differCount master (r :: rest) =
          spec_differCount master rest + (if files_differ v (rowSig r) then 1 else 0) := by
        unfold spec_differCount
        rw [List.countP_cons]
        simp [hg]
      rw [he, hd]
      cases hfd : files_differ v (rowSig r) <;> (simp [hfd]; try omega)

/-- C1: `backup_compare` scans the backup records in order and classifies a
record whose key is absent from the master as extra and a record whose key
is present with a signature differing under the equality policy as
modified, leaves present-and-equal records unclassified, and after the scan
classifies every master key never occurring among the backup records as
missing; the returned `(nmissing, ndiffer, nextra)` are exactly the numbers
of classifications so made. -/
theorem backup_compare_classification (rows : List CsvRow) (master : Dict) :
    backup_compare rows master =
      (spec_missingCount master rows, spec_differCount master rows,
       spec_extraCount master rows) := by
  unfold backup_compare
  rw [compareLoop_spec master rows [] 0 0]
  simp only [Nat.zero_add]
  refine congrArg (fun n => (n, spec_differCount master rows, spec_extraCount master rows)) ?_
  unfold spec_missingCount
  apply List.countP_congr
  intro kv _
  rw [dictContains_buildDict rows [] kv.1, dictContains_nil, Bool.false_or]

/-! ### The equality policy compares sizes only -/

/-- C2: for two well-formed signatures (a 19-character timestamp rendering
followed by the size text), the records compare as matching — `files_differ`
returns `false` — exactly when their size components are equal; the
timestamp component is not compared. -/
theorem files_differ_size_only (ts1 ts2 sz1 sz2 : PyStr)
    (h1 : ts1.length = 19) (h2 : ts2.length = 19) :
    files_differ (ts1 ++ sz1) (ts2 ++ sz2) = false ↔ sz1 = sz2 := by
  rw [files_differ_eq_false_iff, List.drop_left' h1, List.drop_left' h2]

/-- C2 witness: two records with identical size `100` but different
timestamps are classified as matching (not modified). -/
theorem files_differ_size_only_witness :
    files_differ ("2019-01-01 00:00:00".data ++ "100".data)
      ("2020-06-15 12:30:00".data ++ "100".data) = false :=
  (files_differ_size_only ("2019-01-01 00:00:00".data) ("2020-06-15 12:30:00".data)
    ("100".data) ("100".data) (by decide) (by decide)).mpr rfl

/-! ### Keys are case-insensitive -/

/-- Two strings differ only in letter case: same length, and the characters
at each position agree after case folding. -/
def caseVariant : PyStr → PyStr → Bool
  | [], [] => true
  | a :: as2, b :: bs => (Char.toLower a == Char.toLower b) && caseVariant as2 bs
  | _, _ => false

theorem caseVariant_lower {s t : PyStr} (h : caseVariant s t = true) :
    pyLower s = pyLower t := by
  induction s generalizing t with
  | nil => cases t with
    | nil => rfl
    | cons b bs => simp [caseVariant] at h
  | cons a as2 ih =>
    cases t with
    | nil => simp [caseVariant] at h
    | cons b bs =>
      simp only [caseVariant, Bool.and_eq_true, beq_iff_eq] at h
      simp only [pyLower, List.map_cons, h.1]
      have := ih (t := bs) h.2
      simp only [pyLower] at this
      rw [this]

/-- C3: the identity key of a record is the lowercased folder, a backslash,
and the lowercased filename, so two records whose folder and filename
differ only in letter case resolve to the same key. -/
theorem record_key_case_insensitive (r1 r2 : CsvRow)
    (hf : caseVariant r1.folder r2.folder = true)
    (hn : caseVariant r1.filename r2.filename = true) :
    rowKey r1 = rowKey r2 := by
  unfold rowKey fullpath_of
  rw [caseVariant_lower hf, caseVariant_lower hn]

/-- C3 witness: `C:\Data` + `File.txt` and `c:\data` + `file.txt` resolve
to the same key. -/
theorem record_key_case_insensitive_witness :
    rowKey ⟨"C:\\Data".data, "File.txt".data, "2019-01-01 00:00:00".data, "100".data⟩ =
      rowKey ⟨"c:\\data".data, "file.txt".data, "2019-01-01 00:00:00".data, "105".data⟩ :=
  record_key_case_insensitive _ _ (by decide) (by decide)

/-! ### Self-comparison (idempotence) -/

/-- C9 counterexample: a backup record sequence that repeats one key with
two different sizes is NOT clean against a master built from itself — the
first occurrence differs from the last-write-wins master signature, so
`ndiffer = 1` and the result is `(0, 1, 0)`, not `(0, 0, 0)`. -/
theorem self_compare_counterexample :
    backup_compare dupRows (buildDict [] dupRows) ≠ (0, 0, 0) := by decide

/-- C9 (amended): comparing a backup record sequence against a master built
from that same sequence yields `(0, 0, 0)` provided any two records sharing
a key agree on the size component of their signatures (in particular
whenever no key repeats). -/
theorem self_compare_clean (rows : List CsvRow)
    (hsz : ∀ r1 ∈ rows, ∀ r2 ∈ rows, rowKey r1 = rowKey r2 →
      (rowSig r1).drop 19 = (rowSig r2).drop 19) :
    backup_compare rows (buildDict [] rows) = (0, 0, 0) := by
  rw [backup_compare_classification]
  have hextra : spec_extraCount (buildDict [] rows) rows = 0 := by
    unfold spec_extraCount
    rw [List.countP_eq_zero]
    intro r hr
    rw [dictContains_buildDict rows [] (rowKey r), dictContains_nil, Bool.false_or]
    simp only [Bool.not_eq_true', Bool.not_eq_false]
    rw [List.any_eq_true]
    exact ⟨r, hr, by simp⟩
  have hdiffer : spec_differCount (buildDict [] rows) rows = 0 := by
    unfold spec_differCount
    rw [List.countP_eq_zero]
    intro r hr
    cases hg : dictGet (buildDict [] rows) (rowKey r) with
    | none => simp
    | some v =>
      simp only [Bool.not_eq_true]
      obtain ⟨r1, hm1, hk1, hs1⟩ := dictGet_buildDict_value hg
      rw [files_differ_eq_false_iff, ← hs1]
      exact hsz r1 hm1 r hr hk1
  have hmissing : spec_missingCount (buildDict [] rows) rows = 0 := by
    unfold spec_missingCount
    rw [List.countP_eq_zero]
    intro kv hkv
    rcases mem_buildDict rows [] hkv with h | h
    · simp at h
    · obtain ⟨r, hm, he⟩ := h
      simp only [Bool.not_eq_true', Bool.not_eq_false]
      rw [List.any_eq_true]
      exact ⟨r, hm, by rw [he]; simp⟩
  rw [hextra, hdiffer, hmissing]

/-- C9 witness: a duplicate-free sequence satisfies the size-agreement
hypothesis and self-compares clean. -/
theorem self_compare_clean_witness :
    (∀ r1 ∈ selfRows, ∀ r2 ∈ selfRows, rowKey r1 = rowKey r2 →
      (rowSig r1).drop 19 = (rowSig r2).drop 19) ∧
    backup_compare selfRows (buildDict [] selfRows) = (0, 0, 0) :=
  ⟨by decide, self_compare_clean selfRows (by decide)⟩

/-! ### Root-prefix detection and stripping -/

/-- C7: on a directory-header line with a non-empty folder, when no root
path is set yet the root prefix becomes the master marker if the folder
starts with it and the folder's first two characters (the drive-letter
segment) otherwise, and the current folder becomes the folder with that
prefix stripped when present (unchanged otherwise); when a non-empty root
path is already set it is kept and only the stripping is applied.  No row
is emitted. -/
theorem processParsed_header_none (st : ConvState) (folder : PyStr) (hne : folder ≠ [])
    (hnone : st.path = none) :
    processParsed st (.header folder) =
      (⟨some (spec_rootPrefix folder),
        some (spec_stripRoot (spec_rootPrefix folder) folder)⟩, []) := by
  simp only [processParsed, if_neg hne, hnone]
  rfl

theorem processParsed_header_some (st : ConvState) (folder p0 : PyStr) (hne : folder ≠ [])
    (hsome : st.path = some p0) (hp0 : p0 ≠ []) :
    processParsed st (.header folder) =
      (⟨some p0, some (spec_stripRoot p0 folder)⟩, []) := by
  simp only [processParsed, if_neg hne, hsome, if_neg hp0]
  rfl

theorem root_prefix_detection (st : ConvState) (line folder : PyStr)
    (hp : parseline (pyStrip line) = .ok (.header folder)) (hne : folder ≠ []) :
    (st.path = none →
      convertStep st line = .ok (⟨some (spec_rootPrefix folder),
        some (spec_stripRoot (spec_rootPrefix folder) folder)⟩, [])) ∧
    (∀ p0, st.path = some p0 → p0 ≠ [] →
      convertStep st line = .ok (⟨some p0, some (spec_stripRoot p0 folder)⟩, [])) := by
  constructor
  · intro hnone
    unfold convertStep
    rw [hp]
    simp only [Except.map]
    rw [processParsed_header_none st folder hne hnone]
  · intro p0 hsome hp0
    unfold convertStep
    rw [hp]
    simp only [Except.map]
    rw [processParsed_header_some st folder p0 hne hsome hp0]

/-- C7 witness: the first header `Directory of d:\Photos\2019` from the
initial state yields root `d:` and canonical folder `\Photos\2019`. -/
theorem root_prefix_detection_witness :
    convertStep ⟨none, none⟩ ("Directory of d:\\Photos\\2019".data) =
      .ok (⟨some (spec_rootPrefix ("d:\\Photos\\2019".data)),
        some (spec_stripRoot (spec_rootPrefix ("d:\\Photos\\2019".data))
          ("d:\\Photos\\2019".data))⟩, []) ∧
    spec_rootPrefix ("d:\\Photos\\2019".data) = "d:".data ∧
    spec_stripRoot ("d:".data) ("d:\\Photos\\2019".data) = "\\Photos\\2019".data :=
  ⟨(root_prefix_detection ⟨none, none⟩ ("Directory of d:\\Photos\\2019".data)
      ("d:\\Photos\\2019".data) (by decide) (by decide)).1 rfl,
   by decide, by decide⟩

/-! ### Exclusion policy -/

theorem processParsed_excluded_no_rows (st : ConvState) (p : ParsedLine)
    (hex : excluded_folder st.current_folder = true) : (processParsed st p).2 = [] := by
  cases p with
  | noise => rfl
  | header folder =>
    simp only [processParsed]
    split <;> rfl
  | entry fn ts sz =>
    simp only [processParsed]
    split
    · rfl
    · simp [hex]

/-- C8: the exclusion predicate is a total function of the folder path that
excludes exactly the unset/empty paths, paths ending with `__pycache__`,
paths ending with or containing the `\.git` segment, and paths containing
the `\$RECYCLE.BIN\` segment; and while the current folder is excluded no
file-entry record is ever emitted by the conversion loop. -/
theorem exclusion_policy :
    (excluded_folder none = true) ∧
    (∀ f : PyStr, excluded_folder (some f) = true ↔
      (f = [] ∨ ("__pycache__".data).isSuffixOf f = true ∨
       ("\\.git".data).isSuffixOf f = true ∨ pyContains ("\\.git\\".data) f = true ∨
       pyContains ("\\$RECYCLE.BIN\\".data) f = true)) ∧
    (∀ (st : ConvState) (line : PyStr) (st1 : ConvState) (rows : List CsvRow),
      excluded_folder st.current_folder = true →
      convertStep st line = .ok (st1, rows) → rows = []) := by
  refine ⟨rfl, ?_, ?_⟩
  · intro f
    simp only [excluded_folder]
    split_ifs with h1 h2 h3 h4 h5 <;> simp_all
  · intro st line st1 rows hex hok
    unfold convertStep at hok
    cases hp : parseline (pyStrip line) with
    | error e => rw [hp] at hok; exact absurd hok (by simp [Except.map])
    | ok p =>
      rw [hp] at hok
      simp only [Except.map, Except.ok.injEq] at hok
      have : rows = (processParsed st p).2 := by rw [hok]
      rw [this]
      exact processParsed_excluded_no_rows st p hex

/-- C8 witness: a folder ending in the version-control metadata segment is
excluded, so files inside it are never emitted. -/
theorem exclusion_policy_witness :
    excluded_folder (some ("testdata\\.git".data)) = true :=
  (exclusion_policy.2.1 ("testdata\\.git".data)).mpr
    (Or.inr (Or.inr (Or.inl (by decide))))

/-! ### Error handling: malformed file-entry lines -/

/-- C4 counterexample: a listing with a non-empty, non-noise, non-header
line that does not conform to the fixed layout makes the whole conversion
fail with `ValueError` — the offending line is not skipped and the
well-formed line after it yields no record — whereas the same listing
without the offending line converts to exactly that record. -/
theorem convert_skip_counterexample :
    convertLines [goodHeaderLine, badEntryLine, goodEntryLine] = .error .valueError ∧
    convertLines [goodHeaderLine, goodEntryLine] = .ok [goodEntryRow] :=
  ⟨by decide, by decide⟩

/-- C4 (amended): a file-entry line that does not conform to the fixed
layout raises an uncaught `ValueError` that aborts the whole conversion at
that line: no records are produced at all, and the remaining lines are
never parsed. -/
theorem convertFold_cons_error {st : ConvState} {l : PyStr} {ls : List PyStr} {e : PyError}
    (hs : convertStep st l = .error e) : convertFold st (l :: ls) = .error e := by
  simp only [convertFold]
  rw [hs]

theorem convertFold_cons_ok {st st1 : ConvState} {l : PyStr} {ls : List PyStr}
    {rows1 : List CsvRow} (hs : convertStep st l = .ok (st1, rows1)) :
    convertFold st (l :: ls) =
      match convertFold st1 ls with
      | .error e => .error e
      | .ok (stF, rest) => .ok (stF, rows1 ++ rest) := by
  simp only [convertFold]
  rw [hs]

theorem convert_aborts_on_bad_line (st : ConvState) (pre : List PyStr) (bad : PyStr)
    (post : List PyStr) (st1 : ConvState) (rows1 : List CsvRow) (e : PyError)
    (hpre : convertFold st pre = .ok (st1, rows1))
    (hbad : convertStep st1 bad = .error e) :
    convertFold st (pre ++ bad :: post) = .error e := by
  induction pre generalizing st rows1 with
  | nil =>
    simp only [convertFold, Except.ok.injEq, Prod.mk.injEq] at hpre
    rw [List.nil_append, convertFold_cons_error (by rw [hpre.1, hbad])]
  | cons l pre ih =>
    cases hs : convertStep st l with
    | error e2 =>
      rw [convertFold_cons_error hs] at hpre
      exact absurd hpre (by simp)
    | ok p =>
      obtain ⟨st2, rows2⟩ := p
      rw [convertFold_cons_ok hs] at hpre
      rw [List.cons_append, convertFold_cons_ok hs]
      cases hf : convertFold st2 pre with
      | error e2 => rw [hf] at hpre; exact absurd hpre (by simp)
      | ok q =>
        obtain ⟨stF, rowsF⟩ := q
        rw [hf] at hpre
        simp only [Except.ok.injEq, Prod.mk.injEq] at hpre
        rw [ih st2 rowsF (by rw [hf, hpre.1])]

/-- C4 witness: instantiating the abort theorem on a concrete listing whose
second line is malformed. -/
theorem convert_aborts_on_bad_line_witness :
    convertFold ⟨none, none⟩ ([goodHeaderLine] ++ badEntryLine :: [goodEntryLine]) =
      .error .valueError :=
  convert_aborts_on_bad_line ⟨none, none⟩ [goodHeaderLine] badEntryLine [goodEntryLine]
    ⟨some ("d:".data), some ("\\Photos".data)⟩ [] .valueError (by decide) (by decide)

/-! ### Error handling: a backup that cannot be opened -/

/-- `True` exactly on the non-exception results of a Python call. -/
def exceptIsOk {α : Type} : Except PyError α → Bool
  | .ok _ => true
  | .error _ => false

theorem compareAll_abort (fs : FS) (master : Dict) (bad : PyStr) (post : List PyStr)
    (hbad : fsLookup fs bad = none) :
    ∀ pre, (∀ b ∈ pre, exceptIsOk (backup_compare_file fs b master) = true) →
      compareAll fs master (pre ++ bad :: post) = .error .fileNotFoundError := by
  have hbadfile : backup_compare_file fs bad master = .error .fileNotFoundError := by
    have hrows : getRows fs bad = .error .fileNotFoundError := by
      unfold getRows
      split
      · unfold openCsv; rw [hbad]
      · unfold openDir; rw [hbad]
    unfold backup_compare_file
    rw [hrows]
    rfl
  intro pre
  induction pre with
  | nil =>
    intro _
    rw [List.nil_append]
    simp only [compareAll]
    rw [hbadfile]
  | cons b pre ih =>
    intro hpre
    have hb := hpre b (List.mem_cons_self b pre)
    rw [List.cons_append]
    simp only [compareAll]
    cases hcb : backup_compare_file fs b master with
    | error e2 => rw [hcb] at hb; exact absurd hb (by simp [exceptIsOk])
    | ok t =>
      rw [ih (fun x hx => hpre x (List.mem_cons_of_mem b hx))]

/-- C5 counterexample: with master and backups `b0.csv`, `b2.csv` present
but `b1.csv` absent, the whole run raises `FileNotFoundError`: no result is
reported for any backup — `b1.csv` is not merely "reported as failed", and
`b2.csv` is never compared. -/
theorem open_failure_counterexample :
    diff_report fsC5 ["master.csv".data, "b0.csv".data, "b1.csv".data, "b2.csv".data] =
      .error .fileNotFoundError := by decide

/-- C5 (amended): when one backup's data file cannot be opened, the
uncaught `FileNotFoundError` aborts the entire run at that backup: the
remaining backups are not processed and no per-backup results are
returned. -/
theorem open_failure_aborts_run (fs : FS) (m bad : PyStr) (pre post : List PyStr)
    (masterRows : List CsvRow)
    (hm : getRows fs m = .ok masterRows)
    (hpre : ∀ b ∈ pre, exceptIsOk (backup_compare_file fs b (buildDict [] masterRows)) = true)
    (hbad : fsLookup fs bad = none) :
    diff_report fs (m :: (pre ++ bad :: post)) = .error .fileNotFoundError := by
  unfold diff_report
  rw [if_neg (by simp)]
  simp only [hm]
  exact compareAll_abort fs (buildDict [] masterRows) bad post hbad pre hpre

/-- C5 witness: instantiating the abort theorem on the concrete file
system missing `b1.csv`. -/
theorem open_failure_aborts_run_witness :
    diff_report fsC5 ("master.csv".data :: (["b0.csv".data] ++ "b1.csv".data :: ["b2.csv".data])) =
      .error .fileNotFoundError :=
  open_failure_aborts_run fsC5 ("master.csv".data) ("b1.csv".data) ["b0.csv".data]
    ["b2.csv".data] [aRow] (by decide) (by decide) (by decide)

/-! ### Error handling: empty master -/

/-- C6 counterexample: with a master data file holding zero records the run
is not aborted — the backup is compared anyway and its single record is
classified extra. -/
theorem empty_master_counterexample :
    diff_report fsC6 ["master.csv".data, "b.csv".data] = .ok [("b.csv".data, (0, 0, 1))] := by
  decide

/-- C6 (amended): no empty-master check exists: a run whose master store
has zero records proceeds to compare the backups, every backup record is
classified extra, and the run completes normally. -/
theorem empty_master_not_aborted (fs : FS) (m b : PyStr) (brows : List CsvRow)
    (hm : getRows fs m = .ok [])
    (hb : getRows fs b = .ok brows) :
    diff_report fs [m, b] = .ok [(b, (0, 0, brows.length))] := by
  have hcmp : backup_compare brows [] = (0, 0, brows.length) := by
    rw [backup_compare_classification]
    have h2 : spec_differCount [] brows = 0 := by
      unfold spec_differCount
      rw [List.countP_eq_zero]
      intro r _
      simp [dictGet]
    have h3 : spec_extraCount [] brows = brows.length := by
      unfold spec_extraCount
      rw [List.countP_eq_length]
      intro r _
      simp [dictContains]
    rw [h2, h3]
    rfl
  have hbcf : backup_compare_file fs b (buildDict [] ([] : List CsvRow)) =
      .ok (0, 0, brows.length) := by
    unfold backup_compare_file
    rw [hb]
    simp only [Except.map]
    rw [show buildDict [] ([] : List CsvRow) = [] from rfl, hcmp]
  unfold diff_report
  rw [if_neg (by simp)]
  simp only [hm]
  simp only [compareAll]
  rw [hbcf]

/-- C6 witness: instantiating the theorem on the concrete empty-master
file system. -/
theorem empty_master_not_aborted_witness :
    diff_report fsC6 ["master.csv".data, "b.csv".data] =
      .ok [("b.csv".data, (0, 0, [aRow].length))] :=
  empty_master_not_aborted fsC6 ("master.csv".data) ("b.csv".data) [aRow]
    (by decide) (by decide)

/-! ### The form of stored signatures -/

theorem datetime_str_length (dt : PyDatetime) : (datetime_str dt).length = 19 := rfl

theorem datetime_str_seconds (dt : PyDatetime) : (":00".data) <:+ datetime_str dt :=
  List.suffix_append _ _

theorem processParsed_timestamp (st : ConvState) (p : ParsedLine) :
    ∀ r ∈ (processParsed st p).2, ∃ dt, r.timestamp = datetime_str dt := by
  cases p with
  | noise => intro r hr; simp [processParsed] at hr
  | header folder =>
    intro r hr
    simp only [processParsed] at hr
    split at hr <;> simp at hr
  | entry fn ts sz =>
    intro r hr
    simp only [processParsed] at hr
    split at hr
    · simp at hr
    · split at hr
      · simp at hr
      · simp at hr
        exact ⟨ts, by rw [hr]⟩

theorem convertFold_timestamp (lines : List PyStr) :
    ∀ st stF rows, convertFold st lines = .ok (stF, rows) →
      ∀ r ∈ rows, ∃ dt, r.timestamp = datetime_str dt := by
  induction lines with
  | nil =>
    intro st stF rows h
    simp only [convertFold, Except.ok.injEq, Prod.mk.injEq] at h
    intro r hr
    rw [← h.2] at hr
    simp at hr
  | cons l ls ih =>
    intro st stF rows h
    cases hs : convertStep st l with
    | error e => rw [convertFold_cons_error hs] at h; exact absurd h (by simp)
    | ok p =>
      obtain ⟨st1, rows1⟩ := p
      rw [convertFold_cons_ok hs] at h
      cases hf : convertFold st1 ls with
      | error e => rw [hf] at h; exact absurd h (by simp)
      | ok q =>
        obtain ⟨st2, rows2⟩ := q
        rw [hf] at h
        simp only [Except.ok.injEq, Prod.mk.injEq] at h
        intro r hr
        rw [← h.2, List.mem_append] at hr
        rcases hr with hr | hr
        · unfold convertStep at hs
          cases hp : parseline (pyStrip l) with
          | error e => rw [hp] at hs; exact absurd hs (by simp [Except.map])
          | ok pl =>
            rw [hp] at hs
            simp only [Except.map, Except.ok.injEq] at hs
            exact processParsed_timestamp st pl r (by rw [hs]; exact hr)
        · exact ih st1 st2 rows2 hf r hr

/-- C10 counterexample: the CSV file written by the conversion starts with
the header row `folder,filename,timestamp,bytes`, and the store-building
loop ingests it like any other record, so the master/backup stores contain
the signature `timestampbytes` — whose slice from index 19 on is empty, not
its size component `bytes`. -/
theorem header_signature_counterexample :
    convert_to_csv listing10 = .ok [headerRow, goodEntryRow] ∧
    dictGet (buildDict [] [headerRow, goodEntryRow]) (rowKey headerRow) =
      some ("timestampbytes".data) ∧
    ("timestampbytes".data).drop 19 ≠ ("bytes".data) :=
  ⟨by decide, by decide, by decide⟩

/-- C10 (amended): every signature stored from a DATA row emitted by the
conversion is the timestamp's fixed 19-character `YYYY-MM-DD HH:MM:SS`
rendering (seconds always zero) concatenated with the size text, so its
slice from index 19 on is exactly the size component; however the stores
additionally ingest the CSV header row, whose signature `timestampbytes`
does not have this form. -/
theorem converted_signature_form (lines : List PyStr) (stF : ConvState) (rows : List CsvRow)
    (h : convertFold ⟨none, none⟩ lines = .ok (stF, rows)) :
    (∀ r ∈ rows, r.timestamp.length = 19 ∧ (":00".data) <:+ r.timestamp ∧
      (∃ dt, r.timestamp = datetime_str dt) ∧ (rowSig r).drop 19 = r.bytes) ∧
    (∀ k v, dictGet (buildDict [] rows) k = some v →
      ∃ r ∈ rows, v = rowSig r ∧ v.drop 19 = r.bytes) := by
  have hform : ∀ r ∈ rows, r.timestamp.length = 19 ∧ (":00".data) <:+ r.timestamp ∧
      (∃ dt, r.timestamp = datetime_str dt) ∧ (rowSig r).drop 19 = r.bytes := by
    intro r hr
    obtain ⟨dt, hdt⟩ := convertFold_timestamp lines ⟨none, none⟩ stF rows h r hr
    have hlen : r.timestamp.length = 19 := by rw [hdt]; exact datetime_str_length dt
    refine ⟨hlen, ?_, ⟨dt, hdt⟩, ?_⟩
    · rw [hdt]; exact datetime_str_seconds dt
    · unfold rowSig
      exact List.drop_left' hlen
  refine ⟨hform, ?_⟩
  intro k v hget
  obtain ⟨r, hm, hk, hs⟩ := dictGet_buildDict_value hget
  exact ⟨r, hm, hs.symm, by rw [← hs]; exact (hform r hm).2.2.2⟩

/-- C10 witness: the record emitted for the concrete listing has a
19-character timestamp rendering ending in `:00`. -/
theorem converted_signature_form_witness :
    goodEntryRow.timestamp.length = 19 ∧ (":00".data) <:+ goodEntryRow.timestamp :=
  have h := (converted_signature_form listing10
    ⟨some ("d:".data), some ("\\Photos".data)⟩ [goodEntryRow] (by decide)).1
    goodEntryRow (by decide)
  ⟨h.1, h.2.1⟩

